import Mathlib

/-!
Verification of `src/aws-cli-custom.py`, a small CLI dispatching four AWS
operations: start/stop EC2 instances by Name tag, upload a file to S3, and
create an IAM policy.  The program is embedded shallowly: the cloud provider
(boto3 clients) is an abstract environment `Env` giving the result of each
provider call, and each Python function becomes a Lean function producing the
list of observable events (provider calls issued and messages printed).
Python exceptions become an explicit `Fault` type; every `try/except` block of
the source is translated branch by branch.
-/

namespace AwsCli

/-- The exception kinds the source distinguishes in its `except` clauses:
`ClientError`, `NoCredentialsError`, `FileNotFoundError`, and any other
`Exception` (carrying its message, as Python prints `f"{e}"`). -/
inductive Fault where
  | clientError (msg : String)
  | noCredentials
  | fileNotFound
  | other (msg : String)
  deriving DecidableEq, Repr

/-- The string Python obtains for the exception in `f"{e}"`. -/
def Fault.msg : Fault → String
  | .clientError m => m
  | .noCredentials => "Unable to locate credentials"
  | .fileNotFound => "No such file or directory"
  | .other m => m

/-- Observable events of one program run: messages printed, the help text,
an argparse usage error, and each provider call issued with its arguments. -/
inductive Event where
  | print (msg : String)
  | printHelp
  | usageError (msg : String)
  | describeInstancesCall (name : String)
  | startInstancesCall (ids : List String)
  | stopInstancesCall (ids : List String)
  | uploadFileCall (fileName bucketName key : String)
  | createPolicyCall (policyName policyDocument : String)
  deriving DecidableEq, Repr

/-- Is the event a provider (network) call at all? -/
def Event.isProviderCall : Event → Bool
  | .describeInstancesCall _ => true
  | .startInstancesCall _ => true
  | .stopInstancesCall _ => true
  | .uploadFileCall _ _ _ => true
  | .createPolicyCall _ _ => true
  | _ => false

/-- Is the event a state-changing provider call (anything but describe)? -/
def Event.isStateChangingCall : Event → Bool
  | .startInstancesCall _ => true
  | .stopInstancesCall _ => true
  | .uploadFileCall _ _ _ => true
  | .createPolicyCall _ _ => true
  | _ => false

/-- Is the event a start-instances call? -/
def Event.isStartCall : Event → Bool
  | .startInstancesCall _ => true
  | _ => false

/-- Is the event a stop-instances call? -/
def Event.isStopCall : Event → Bool
  | .stopInstancesCall _ => true
  | _ => false

/-- Is the event an upload-file call? -/
def Event.isUploadCall : Event → Bool
  | .uploadFileCall _ _ _ => true
  | _ => false

/-- Is the event a create-policy call? -/
def Event.isCreatePolicyCall : Event → Bool
  | .createPolicyCall _ _ => true
  | _ => false

/-- The abstract cloud provider: for each call the program can make, the
result the provider would return (success value or raised fault), plus the
local filesystem (`fileExists`) consulted by the SDK before an upload.
`describeInstancesResult` returns `response[Reservations]` as a list of
reservations, each a list of the `InstanceId` values of its instances. -/
structure Env where
  describeInstancesResult : String → Except Fault (List (List String))
  startInstancesResult : List String → Except Fault Unit
  stopInstancesResult : List String → Except Fault Unit
  fileExists : String → Bool
  uploadFileResult : String → String → String → Except Fault Unit
  createPolicyResult : String → String → Except Fault Unit

/-- `get_instance_id_by_name` (source lines 106-139): one describe-instances
call filtered on `tag:Name`, flattening instance IDs across reservations.
Returns `none` (Python `None`) when no IDs are found — printing
"No instances found with the name: ..." — and on any fault, printing
"Failed to retrieve instance ID: ..." for a `ClientError` and
"Unexpected error: ..." otherwise. -/
def get_instance_id_by_name (env : Env) (instance_name : String) :
    List Event × Option (List String) :=
  match env.describeInstancesResult instance_name with
  | .ok reservations =>
      let instance_ids := reservations.flatten
      if instance_ids.isEmpty then
        ([.describeInstancesCall instance_name,
          .print ("No instances found with the name: " ++ instance_name)], none)
      else
        ([.describeInstancesCall instance_name], some instance_ids)
  | .error (.clientError e) =>
      ([.describeInstancesCall instance_name,
        .print ("Failed to retrieve instance ID: " ++ e)], none)
  | .error f =>
      ([.describeInstancesCall instance_name,
        .print ("Unexpected error: " ++ f.msg)], none)

/-- `start_ec2` (source lines 17-35): resolve the name, and if the result is
truthy (a non-empty ID list) issue one `start_instances` call with the whole
list, printing the joined IDs on success, the `ClientError` message on a
client fault, and "Unexpected error" otherwise. -/
def start_ec2 (env : Env) (instance_name : String) : List Event :=
  let r := get_instance_id_by_name env instance_name
  match r.2 with
  | none => r.1
  | some instance_ids =>
      match env.startInstancesResult instance_ids with
      | .ok _ =>
          r.1 ++ [.startInstancesCall instance_ids,
            .print ("Starting instance(s): " ++ String.intercalate ", " instance_ids)]
      | .error (.clientError e) =>
          r.1 ++ [.startInstancesCall instance_ids,
            .print ("Failed to start instance(s): " ++ e)]
      | .error f =>
          r.1 ++ [.startInstancesCall instance_ids,
            .print ("Unexpected error: " ++ Fault.msg f)]

/-- `stop_ec2` (source lines 38-56): identical to `start_ec2` with the stop
call and the corresponding messages. -/
def stop_ec2 (env : Env) (instance_name : String) : List Event :=
  let r := get_instance_id_by_name env instance_name
  match r.2 with
  | none => r.1
  | some instance_ids =>
      match env.stopInstancesResult instance_ids with
      | .ok _ =>
          r.1 ++ [.stopInstancesCall instance_ids,
            .print ("Stopping instance(s): " ++ String.intercalate ", " instance_ids)]
      | .error (.clientError e) =>
          r.1 ++ [.stopInstancesCall instance_ids,
            .print ("Failed to stop instance(s): " ++ e)]
      | .error f =>
          r.1 ++ [.stopInstancesCall instance_ids,
            .print ("Unexpected error: " ++ Fault.msg f)]

/-- The SDK call `s3.upload_file(file_name, bucket_name, key)`: boto3 opens
the local file first and raises `FileNotFoundError` before any network
transfer when the path does not exist; otherwise the network call is issued
with the given key and the provider answers with success or a fault. -/
def s3_upload_file (env : Env) (file_name bucket_name key : String) :
    List Event × Except Fault Unit :=
  if env.fileExists file_name then
    ([.uploadFileCall file_name bucket_name key],
     env.uploadFileResult file_name bucket_name key)
  else
    ([], .error .fileNotFound)

/-- `upload_file_s3` (source lines 59-81): one `s3.upload_file` call using
`file_name` both as the local path and as the object key, with the four
`except` branches of the source. -/
def upload_file_s3 (env : Env) (bucket_name file_name : String) : List Event :=
  let r := s3_upload_file env file_name bucket_name file_name
  match r.2 with
  | .ok _ => r.1 ++ [.print ("Uploaded " ++ file_name ++ " to " ++ bucket_name)]
  | .error .fileNotFound => r.1 ++ [.print ("File " ++ file_name ++ " not found")]
  | .error .noCredentials => r.1 ++ [.print "AWS credentials not found"]
  | .error (.clientError e) => r.1 ++ [.print ("Failed to upload file to S3: " ++ e)]
  | .error f => r.1 ++ [.print ("Unexpected error: " ++ Fault.msg f)]

/-- `create_policy` (source lines 84-103): one `iam.create_policy` call with
the name and the document string exactly as given, printing
"Created policy ..." on success. -/
def create_policy (env : Env) (policy_name policy_document : String) : List Event :=
  match env.createPolicyResult policy_name policy_document with
  | .ok _ =>
      [.createPolicyCall policy_name policy_document,
       .print ("Created policy " ++ policy_name)]
  | .error (.clientError e) =>
      [.createPolicyCall policy_name policy_document,
       .print ("Failed to create policy: " ++ e)]
  | .error f =>
      [.createPolicyCall policy_name policy_document,
       .print ("Unexpected error: " ++ Fault.msg f)]

/-- The result of argparse for the parser built in `main` (source lines
147-188): either the parsed namespace — `args.command` plus the subcommand's
positionals — or a usage error, on which argparse prints usage and an error
message and exits the process with status 2. -/
inductive ParsedArgs where
  | noCommand
  | startEc2 (instance_name : String)
  | stopEc2 (instance_name : String)
  | uploadS3 (bucket_name file_name : String)
  | createPolicyCmd (policy_name policy_document : String)
  deriving DecidableEq, Repr

/-- argparse handling of a subcommand with one required positional. -/
def parseOnePositional (field : String) (mk : String → ParsedArgs) :
    List String → Except String ParsedArgs
  | [] => .error ("the following arguments are required: " ++ field)
  | [a] => .ok (mk a)
  | _ :: b :: rest =>
      .error ("unrecognized arguments: " ++ String.intercalate " " (b :: rest))

/-- argparse handling of a subcommand with two required positionals. -/
def parseTwoPositionals (f1 f2 : String) (mk : String → String → ParsedArgs) :
    List String → Except String ParsedArgs
  | [] => .error ("the following arguments are required: " ++ f1 ++ ", " ++ f2)
  | [_] => .error ("the following arguments are required: " ++ f2)
  | [a, b] => .ok (mk a b)
  | _ :: _ :: c :: rest =>
      .error ("unrecognized arguments: " ++ String.intercalate " " (c :: rest))

/-- `parser.parse_args()` for the parser of `main`: no arguments yield
`args.command = None`; a recognized subcommand requires its positionals
(argparse rejects missing or extra ones with a usage error and exit status
2); any other first token is rejected as an invalid choice, also with exit
status 2. -/
def parse_args : List String → Except String ParsedArgs
  | [] => .ok .noCommand
  | cmd :: rest =>
      if cmd = "start-ec2" then
        parseOnePositional "instance_name" ParsedArgs.startEc2 rest
      else if cmd = "stop-ec2" then
        parseOnePositional "instance_name" ParsedArgs.stopEc2 rest
      else if cmd = "upload-s3" then
        parseTwoPositionals "bucket_name" "file_name" ParsedArgs.uploadS3 rest
      else if cmd = "create-policy" then
        parseTwoPositionals "policy_name" "policy_document" ParsedArgs.createPolicyCmd rest
      else
        .error ("argument command: invalid choice: " ++ cmd)

/-- `main` (source lines 142-216): parse the command line, then dispatch.
Each dispatch arm re-checks Python truthiness of the positionals (`not s`
is true exactly for the empty string) and prints its own error without
calling the operation when one is empty; otherwise it runs the operation.
No subcommand prints the help text.  The returned `Nat` is the process exit
status: 2 when argparse rejected the command line, 0 otherwise (the
operations catch every fault). -/
def main (env : Env) (argv : List String) : List Event × Nat :=
  match parse_args argv with
  | .error msg => ([.usageError msg], 2)
  | .ok args =>
      match args with
      | .noCommand => ([.printHelp], 0)
      | .startEc2 instance_name =>
          if instance_name = "" then
            ([.print "Error: \x27instance_name\x27 is required for start-ec2"], 0)
          else
            (start_ec2 env instance_name, 0)
      | .stopEc2 instance_name =>
          if instance_name = "" then
            ([.print "Error: \x27instance_name\x27 is required for stop-ec2"], 0)
          else
            (stop_ec2 env instance_name, 0)
      | .uploadS3 bucket_name file_name =>
          if bucket_name = "" ∨ file_name = "" then
            ([.print "Error: Both \x27bucket_name\x27 and \x27file_name\x27 are required for upload-s3"], 0)
          else
            (upload_file_s3 env bucket_name file_name, 0)
      | .createPolicyCmd policy_name policy_document =>
          if policy_name = "" ∨ policy_document = "" then
            ([.print "Error: Both \x27policy_name\x27 and \x27policy_document\x27 are required for create-policy"], 0)
          else
            (create_policy env policy_name policy_document, 0)

/-- A concrete provider for evaluation: two instances tagged `web-1`, every
call succeeding, and `missing.txt` the only absent local file. -/
def testEnv : Env where
  describeInstancesResult := fun n =>
    if n = "web-1" then .ok [["i-0001"], ["i-0002"]] else .ok []
  startInstancesResult := fun _ => .ok ()
  stopInstancesResult := fun _ => .ok ()
  fileExists := fun f => !(f = "missing.txt")
  uploadFileResult := fun _ _ _ => .ok ()
  createPolicyResult := fun _ _ => .ok ()

/-- A concrete provider on which every call raises a `ClientError`. -/
def failEnv : Env where
  describeInstancesResult := fun _ => .error (.clientError "AccessDenied")
  startInstancesResult := fun _ => .error (.clientError "AccessDenied")
  stopInstancesResult := fun _ => .error (.clientError "AccessDenied")
  fileExists := fun _ => true
  uploadFileResult := fun _ _ _ => .error (.clientError "AccessDenied")
  createPolicyResult := fun _ _ => .error (.clientError "AccessDenied")

/-- The message the resolver prints for a fault: the `ClientError` branch and
the catch-all branch of `get_instance_id_by_name`. -/
def resolverFaultMsg : Fault → String
  | .clientError e => "Failed to retrieve instance ID: " ++ e
  | f => "Unexpected error: " ++ f.msg

/-- When the describe call succeeds with no instance IDs, the resolver prints
the not-found message and returns `none`. -/
theorem get_ok_empty (env : Env) (name : String) (rss : List (List String))
    (hd : env.describeInstancesResult name = .ok rss) (he : rss.flatten = []) :
    get_instance_id_by_name env name =
      ([.describeInstancesCall name,
        .print ("No instances found with the name: " ++ name)], none) := by
  simp [get_instance_id_by_name, hd, he]

/-- When the describe call succeeds with at least one instance ID, the
resolver issues only the describe call and returns the flattened ID list. -/
theorem get_ok_nonempty (env : Env) (name : String) (rss : List (List String))
    (hd : env.describeInstancesResult name = .ok rss) (hne : rss.flatten ≠ []) :
    get_instance_id_by_name env name =
      ([.describeInstancesCall name], some rss.flatten) := by
  simp [get_instance_id_by_name, hd, hne]

/-- When the describe call raises, the resolver prints the fault and returns
`none`. -/
theorem get_error (env : Env) (name : String) (f : Fault)
    (hd : env.describeInstancesResult name = .error f) :
    get_instance_id_by_name env name =
      ([.describeInstancesCall name, .print (resolverFaultMsg f)], none) := by
  cases f <;> simp [get_instance_id_by_name, hd, resolverFaultMsg, Fault.msg]

/-- If the resolver returned `some ids`, the describe call succeeded, the
trace is the lone describe call, and `ids` is non-empty. -/
theorem get_some_shape (env : Env) (name : String) (ids : List String)
    (h : (get_instance_id_by_name env name).2 = some ids) :
    get_instance_id_by_name env name = ([.describeInstancesCall name], some ids) ∧
    ids ≠ [] := by
  cases hd : env.describeInstancesResult name with
  | ok rss =>
      by_cases he : rss.flatten = []
      · rw [get_ok_empty env name rss hd he] at h
        simp at h
      · rw [get_ok_nonempty env name rss hd he] at h
        simp only at h
        obtain rfl : rss.flatten = ids := by simpa using h
        exact ⟨get_ok_nonempty env name rss hd he, he⟩
  | error f =>
      rw [get_error env name f hd] at h
      simp at h

/-- C1: for every instance name for which the resolver returns one or more
instance IDs, `start_ec2` issues exactly one start call and `stop_ec2`
exactly one stop call — never one call per ID — whose ID-list argument is the
full matched list, and on provider success each prints the joined IDs it
started/stopped. -/
theorem start_stop_single_batched_call (env : Env) (name : String) (ids : List String)
    (h : (get_instance_id_by_name env name).2 = some ids) :
    (start_ec2 env name).filter Event.isStartCall = [.startInstancesCall ids] ∧
    (stop_ec2 env name).filter Event.isStopCall = [.stopInstancesCall ids] ∧
    (env.startInstancesResult ids = .ok () →
      Event.print ("Starting instance(s): " ++ String.intercalate ", " ids)
        ∈ start_ec2 env name) ∧
    (env.stopInstancesResult ids = .ok () →
      Event.print ("Stopping instance(s): " ++ String.intercalate ", " ids)
        ∈ stop_ec2 env name) := by
  obtain ⟨hg, -⟩ := get_some_shape env name ids h
  unfold start_ec2 stop_ec2
  rw [hg]
  refine ⟨?_, ?_, ?_, ?_⟩
  · cases hs : env.startInstancesResult ids with
    | ok u => simp [hs, Event.isStartCall]
    | error f => cases f <;> simp [hs, Event.isStartCall]
  · cases hs : env.stopInstancesResult ids with
    | ok u => simp [hs, Event.isStopCall]
    | error f => cases f <;> simp [hs, Event.isStopCall]
  · intro hs
    simp [hs]
  · intro hs
    simp [hs]

/-- C1 witness: on the concrete provider, `web-1` resolves to two IDs and the
start trace contains exactly one start call carrying both. -/
theorem start_stop_single_batched_call_witness :
    (start_ec2 testEnv "web-1").filter Event.isStartCall
      = [Event.startInstancesCall ["i-0001", "i-0002"]] :=
  (start_stop_single_batched_call testEnv "web-1" ["i-0001", "i-0002"] (by decide)).1

/-- C2: for every instance name with zero matching instances, `start_ec2` and
`stop_ec2` print "No instances found with the name: ..." and issue no
state-changing provider call. -/
theorem zero_matches_no_state_changing_call (env : Env) (name : String)
    (rss : List (List String))
    (hd : env.describeInstancesResult name = .ok rss) (he : rss.flatten = []) :
    start_ec2 env name =
      [.describeInstancesCall name,
       .print ("No instances found with the name: " ++ name)] ∧
    stop_ec2 env name =
      [.describeInstancesCall name,
       .print ("No instances found with the name: " ++ name)] ∧
    (start_ec2 env name).filter Event.isStateChangingCall = [] ∧
    (stop_ec2 env name).filter Event.isStateChangingCall = [] := by
  have hg := get_ok_empty env name rss hd he
  unfold start_ec2 stop_ec2
  rw [hg]
  simp [Event.isStateChangingCall]

/-- C2 witness: on the concrete provider, `ghost` matches nothing; the start
trace is the describe call followed by the not-found message. -/
theorem zero_matches_no_state_changing_call_witness :
    start_ec2 testEnv "ghost" =
      [Event.describeInstancesCall "ghost",
       Event.print ("No instances found with the name: " ++ "ghost")] :=
  (zero_matches_no_state_changing_call testEnv "ghost" [] (by rfl) (by rfl)).1

/-- C3: `create_policy` issues exactly one create-policy call whose document
argument is the given string unchanged, and on provider success prints
"Created policy " followed by the policy name. -/
theorem create_policy_document_verbatim (env : Env)
    (policy_name policy_document : String) :
    (create_policy env policy_name policy_document).filter Event.isCreatePolicyCall
      = [.createPolicyCall policy_name policy_document] ∧
    (env.createPolicyResult policy_name policy_document = .ok () →
      Event.print ("Created policy " ++ policy_name)
        ∈ create_policy env policy_name policy_document) := by
  unfold create_policy
  cases hc : env.createPolicyResult policy_name policy_document with
  | ok u => simp [Event.isCreatePolicyCall]
  | error f => cases f <;> simp [Event.isCreatePolicyCall]

/-- C3 witness: on the concrete provider the call carries the document
string unchanged and the success message carries the policy name. -/
theorem create_policy_document_verbatim_witness :
    Event.print ("Created policy " ++ "ReadOnly")
      ∈ create_policy testEnv "ReadOnly" "policy-doc-string" :=
  (create_policy_document_verbatim testEnv "ReadOnly" "policy-doc-string").2 (by rfl)

/-- C4: when the local file does not exist, `upload_file_s3` prints exactly
the distinct not-found message naming the file and issues no provider call at
all. -/
theorem upload_missing_file_fails_locally (env : Env)
    (bucket_name file_name : String) (h : env.fileExists file_name = false) :
    upload_file_s3 env bucket_name file_name
      = [.print ("File " ++ file_name ++ " not found")] ∧
    (upload_file_s3 env bucket_name file_name).filter Event.isProviderCall = [] := by
  unfold upload_file_s3 s3_upload_file
  simp [h, Event.isProviderCall]

/-- C4 witness: uploading the absent `missing.txt` yields only the not-found
message. -/
theorem upload_missing_file_fails_locally_witness :
    upload_file_s3 testEnv "my-bucket" "missing.txt"
      = [Event.print ("File " ++ "missing.txt" ++ " not found")] :=
  (upload_missing_file_fails_locally testEnv "my-bucket" "missing.txt" (by decide)).1

/-- C5: when the describe call raises any fault, the resolver catches it,
prints a report, and returns `none` — the very value it returns for zero
matches, so the caller cannot tell "not found" from "provider error" by the
return value. -/
theorem resolver_fault_returns_none (env : Env) (name : String) (f : Fault)
    (h : env.describeInstancesResult name = .error f) :
    (get_instance_id_by_name env name).2 = none ∧
    Event.print (resolverFaultMsg f) ∈ (get_instance_id_by_name env name).1 ∧
    (∀ env2 name2 rss, env2.describeInstancesResult name2 = .ok rss →
      rss.flatten = [] → (get_instance_id_by_name env2 name2).2 = none) := by
  rw [get_error env name f h]
  refine ⟨rfl, by simp, ?_⟩
  intro env2 name2 rss h2 he
  rw [get_ok_empty env2 name2 rss h2 he]

/-- C5 witness: on the always-failing provider the resolver returns `none`. -/
theorem resolver_fault_returns_none_witness :
    (get_instance_id_by_name failEnv "web-1").2 = none :=
  (resolver_fault_returns_none failEnv "web-1"
    (Fault.clientError "AccessDenied") (by rfl)).1

/-- C6 counterexample: the claim says no invocation ever exits non-zero on
failure, but invoking `start-ec2` with its required argument missing is
rejected by argparse and the process exits with status 2. -/
theorem exit_status_nonzero_on_parse_failure :
    (main testEnv ["start-ec2"]).2 = 2 ∧ (main testEnv ["start-ec2"]).2 ≠ 0 := by
  constructor <;> decide

/-- C6 amended: for every invocation whose command line argparse accepts, the
process exits with status 0 for every provider environment — every fault
raised during the four operations is caught inside the operation, printed,
and never propagated to the exit status. -/
theorem exit_status_zero_when_parse_succeeds (env : Env) (argv : List String)
    (a : ParsedArgs) (h : parse_args argv = .ok a) : (main env argv).2 = 0 := by
  unfold main
  rw [h]
  cases a <;> dsimp only <;> (split <;> rfl)

/-- C6 witness: on the always-failing provider, a well-formed start command
still exits with status 0. -/
theorem exit_status_zero_when_parse_succeeds_witness :
    (main failEnv ["start-ec2", "web-1"]).2 = 0 :=
  exit_status_zero_when_parse_succeeds failEnv ["start-ec2", "web-1"]
    (ParsedArgs.startEc2 "web-1") (by rfl)

/-- C7: each subcommand invoked with a required positional missing is
rejected before dispatch with a usage error naming the missing field, and the
whole trace is that usage error: no provider call is issued and no operation
runs. -/
theorem missing_argument_yields_named_error (env : Env) (b n : String) :
    main env ["start-ec2"]
      = ([.usageError "the following arguments are required: instance_name"], 2) ∧
    main env ["stop-ec2"]
      = ([.usageError "the following arguments are required: instance_name"], 2) ∧
    main env ["upload-s3"]
      = ([.usageError "the following arguments are required: bucket_name, file_name"], 2) ∧
    main env ["upload-s3", b]
      = ([.usageError "the following arguments are required: file_name"], 2) ∧
    main env ["create-policy"]
      = ([.usageError "the following arguments are required: policy_name, policy_document"], 2) ∧
    main env ["create-policy", n]
      = ([.usageError "the following arguments are required: policy_document"], 2) := by
  refine ⟨rfl, rfl, rfl, rfl, rfl, rfl⟩

/-- C8 counterexample: the claim says an unrecognized subcommand exits
without error, but argparse rejects it as an invalid choice and the process
exits with status 2, not 0. -/
theorem unrecognized_subcommand_exits_nonzero :
    main testEnv ["frobnicate"]
      = ([Event.usageError ("argument command: invalid choice: " ++ "frobnicate")], 2) ∧
    (main testEnv ["frobnicate"]).2 ≠ 0 := by
  constructor <;> decide

/-- C8 amended: with no subcommand, `main` prints the help text, issues no
provider call, and exits with status 0; with an unrecognized subcommand,
argparse prints a usage error naming the invalid choice, no provider call is
issued, and the process exits with status 2. -/
theorem no_or_unknown_subcommand_makes_no_call (env : Env) (cmd : String)
    (rest : List String)
    (h1 : cmd ≠ "start-ec2") (h2 : cmd ≠ "stop-ec2")
    (h3 : cmd ≠ "upload-s3") (h4 : cmd ≠ "create-policy") :
    main env [] = ([.printHelp], 0) ∧
    main env (cmd :: rest)
      = ([.usageError ("argument command: invalid choice: " ++ cmd)], 2) := by
  refine ⟨rfl, ?_⟩
  unfold main parse_args
  simp [h1, h2, h3, h4]

/-- C8 witness: an unknown subcommand is rejected as an invalid choice with
exit status 2. -/
theorem no_or_unknown_subcommand_makes_no_call_witness :
    main testEnv ["bogus-cmd"]
      = ([Event.usageError ("argument command: invalid choice: " ++ "bogus-cmd")], 2) :=
  (no_or_unknown_subcommand_makes_no_call testEnv "bogus-cmd" []
    (by decide) (by decide) (by decide) (by decide)).2

/-- C9: whenever the upload call is issued (the local file exists), the
remote object key is the very string given as the local file path — exactly
one upload call, with source path and key both equal to `file_name`. -/
theorem upload_key_equals_file_path (env : Env) (bucket_name file_name : String)
    (h : env.fileExists file_name = true) :
    (upload_file_s3 env bucket_name file_name).filter Event.isUploadCall
      = [.uploadFileCall file_name bucket_name file_name] := by
  unfold upload_file_s3 s3_upload_file
  rw [h]
  cases hr : env.uploadFileResult file_name bucket_name file_name with
  | ok u => simp [hr, Event.isUploadCall]
  | error f => cases f <;> simp [hr, Event.isUploadCall]

/-- C9 witness: uploading the existing `notes.txt` issues one upload call
whose key is `notes.txt` itself. -/
theorem upload_key_equals_file_path_witness :
    (upload_file_s3 testEnv "my-bucket" "notes.txt").filter Event.isUploadCall
      = [Event.uploadFileCall "notes.txt" "my-bucket" "notes.txt"] :=
  upload_key_equals_file_path testEnv "my-bucket" "notes.txt" (by decide)

/-- C10: a recognized subcommand whose required positional is supplied as the
empty string passes argparse but is treated as missing by the dispatch: the
in-dispatch truthiness check prints the error naming the required fields and
the operation — hence any provider call — is never invoked. -/
theorem empty_argument_treated_as_missing (env : Env) (b f n d : String) :
    main env ["start-ec2", ""]
      = ([.print "Error: \x27instance_name\x27 is required for start-ec2"], 0) ∧
    main env ["stop-ec2", ""]
      = ([.print "Error: \x27instance_name\x27 is required for stop-ec2"], 0) ∧
    main env ["upload-s3", "", f]
      = ([.print "Error: Both \x27bucket_name\x27 and \x27file_name\x27 are required for upload-s3"], 0) ∧
    main env ["upload-s3", b, ""]
      = ([.print "Error: Both \x27bucket_name\x27 and \x27file_name\x27 are required for upload-s3"], 0) ∧
    main env ["create-policy", "", d]
      = ([.print "Error: Both \x27policy_name\x27 and \x27policy_document\x27 are required for create-policy"], 0) ∧
    main env ["create-policy", n, ""]
      = ([.print "Error: Both \x27policy_name\x27 and \x27policy_document\x27 are required for create-policy"], 0) := by
  refine ⟨rfl, rfl, ?_, ?_, ?_, ?_⟩ <;>
    simp [main, parse_args, parseTwoPositionals]

end AwsCli
